import Mathlib

/-!
Verification of the job-orchestration core of `revit_family_maker`
(`src/revit_family_maker/aps_client.py`), shallowly embedded in Lean.

Time (`time.time()`) is modelled as a rational number; HTTP responses and
JSON bodies are modelled as explicit data; the network is modelled as a
list of pre-determined responses consumed by each attempt.
-/

namespace APS

/-- `APSToken` dataclass (aps_client.py lines 20-31): access token, absolute
expiry time, and token type. -/
structure APSToken where
  access_token : String
  expires_at : ℚ
  token_type : String
  deriving Repr, DecidableEq

/-- `APSToken.is_expired` (line 31): `time.time() >= (self.expires_at - 300)`,
the fixed 5-minute buffer, evaluated at the current time `now`. -/
def APSToken.is_expired (t : APSToken) (now : ℚ) : Bool :=
  decide (t.expires_at - 300 ≤ now)

/-- The JSON body of a token-exchange response, with each field optional to
model `result.get(...)` / `result[...]` key lookups (lines 67-74). -/
structure TokenResponse where
  access_token : Option String
  expires_in : Option ℚ
  token_type : Option String
  deriving Repr, DecidableEq

/-- One HTTP outcome of the token endpoint: either a response with a status
code and parsed JSON body, or a transport failure (`httpx.RequestError`). -/
inductive HttpResp where
  | resp (code : ℕ) (body : TokenResponse)
  | netError
  deriving Repr, DecidableEq

/-- The exceptions `authenticate` can raise: `httpx.HTTPStatusError` from
`raise_for_status()`, `httpx.RequestError` from the transport, and `KeyError`
from `result["access_token"]`. -/
inductive AuthError where
  | httpStatus (code : ℕ)
  | request
  | keyError (key : String)
  deriving Repr, DecidableEq

/-- Body parsing in `authenticate` (lines 69-74): `expires_in` defaults to
3600, `token_type` defaults to "Bearer", but a missing `access_token` raises
`KeyError` before the cache is assigned. -/
def parseTokenBody (now : ℚ) (body : TokenResponse) : Except AuthError APSToken :=
  match body.access_token with
  | none => .error (.keyError "access_token")
  | some a =>
      .ok { access_token := a
            expires_at := now + body.expires_in.getD 3600
            token_type := body.token_type.getD "Bearer" }

/-- One network attempt of the exchange (lines 64-74): a transport failure
raises `RequestError`; `raise_for_status()` raises `HTTPStatusError` on any
non-2xx code; otherwise the body is parsed. -/
def exchangeOnce (now : ℚ) : HttpResp → Except AuthError APSToken
  | .netError => .error .request
  | .resp code body =>
      if code < 200 ∨ 300 ≤ code then .error (.httpStatus code)
      else parseTokenBody now body

/-- The tenacity predicate on `authenticate` (lines 45-49):
`retry_if_exception_type((httpx.HTTPStatusError, httpx.RequestError))` —
HTTP status errors and transport errors are retried, `KeyError` is not. -/
def authRetryable : AuthError → Bool
  | .httpStatus _ => true
  | .request => true
  | .keyError _ => false

/-- The exchange loop produced by the tenacity decorator around the body of
`authenticate` when the cache is absent or expired: each attempt consumes one
response; a retryable failure with attempts remaining retries, anything else
returns. Result: (outcome, new cached token, number of exchanges performed).
`none` means the schedule of responses was exhausted. -/
def authLoop (now : ℚ) (cache : Option APSToken) :
    List HttpResp → ℕ → Option (Except AuthError APSToken × Option APSToken × ℕ)
  | [], _ => none
  | r :: rest, attempts =>
      match exchangeOnce now r with
      | .ok t => some (.ok t, some t, 1)
      | .error e =>
          if authRetryable e ∧ 1 < attempts then
            (authLoop now cache rest (attempts - 1)).map
              (fun x => (x.1, x.2.1, x.2.2 + 1))
          else some (.error e, cache, 1)

/-- `stop_after_attempt(3)` on `authenticate` (line 47). -/
def authMaxAttempts : ℕ := 3

/-- `authenticate` (lines 50-77) as wrapped by its retry decorator: if a
cached token exists and is not expired it is returned with zero network
exchanges; otherwise the exchange loop runs with at most 3 attempts. -/
def authenticate (now : ℚ) (cache : Option APSToken) (resps : List HttpResp) :
    Option (Except AuthError APSToken × Option APSToken × ℕ) :=
  match cache with
  | some t =>
      if t.is_expired now = false then some (.ok t, some t, 0)
      else authLoop now cache resps authMaxAttempts
  | none => authLoop now cache resps authMaxAttempts

/-! ## Submission and status-poll call sites -/

/-- Errors raised by the Design Automation call sites: `raise_for_status()`
or a transport failure. -/
inductive DAError where
  | httpStatus (code : ℕ)
  | request
  deriving Repr, DecidableEq

/-- The tenacity predicate on `get_workitem_status` (line 126):
`retry_if_exception_type(httpx.RequestError)` — only transport errors. -/
def statusRetryable : DAError → Bool
  | .httpStatus _ => false
  | .request => true

/-- `stop_after_attempt(3)` on `get_workitem_status` (line 127). -/
def statusMaxAttempts : ℕ := 3

/-- A generic tenacity loop: each attempt consumes one pre-determined
outcome; a failure satisfying `retryable` with attempts remaining retries,
anything else returns (outcome, attempts used). `none` = schedule exhausted. -/
def retryCall {E A : Type} (retryable : E → Bool) :
    List (Except E A) → ℕ → Option (Except E A × ℕ)
  | [], _ => none
  | r :: rest, attempts =>
      match r with
      | .ok a => some (.ok a, 1)
      | .error e =>
          if retryable e ∧ 1 < attempts then
            (retryCall retryable rest (attempts - 1)).map
              (fun x => (x.1, x.2 + 1))
          else some (.error e, 1)

/-- `get_workitem_status` (lines 125-148) as wrapped by its retry decorator:
one GET per attempt, where `A` is the JSON status body. -/
def get_workitem_status {A : Type} (resps : List (Except DAError A)) :
    Option (Except DAError A × ℕ) :=
  retryCall statusRetryable resps statusMaxAttempts

/-- The submission POST of `create_workitem` (lines 86-123): the method has
no retry decorator, so exactly the first outcome is returned and exactly one
attempt is made, whatever the outcome is. -/
def create_workitem {A : Type} : List (Except DAError A) → Option (Except DAError A × ℕ)
  | [] => none
  | r :: _ => some (r, 1)

/-! ## Polling loop (`poll_workitem`, lines 150-196) -/

/-- One pre-determined answer of `get_workitem_status` inside the polling
loop: the `status` field of the body (`status.get("status")`, absent key
gives `none`), the optional `reportUrl`, and the wall-clock duration `rtt`
of the status query round-trip. -/
structure PollStep where
  status : Option String
  reportUrl : Option String
  rtt : ℚ
  deriving Repr, DecidableEq

/-- Outcome of `poll_workitem`: the returned final status, one of the raised
errors, or `outOfSchedule` when the pre-determined schedule ran out while
the loop would have continued. -/
inductive PollResult where
  | success (step : PollStep)
  | execError (reportUrl : Option String)
  | cancelledError
  | timeout
  | outOfSchedule
  deriving Repr, DecidableEq

/-- The `while time.time() - start_time < max_wait` loop of `poll_workitem`
(lines 174-196), with explicit wall-clock time: the deadline is checked at
the top of each iteration; a poll advances the clock by its round-trip time;
`"success"` returns, `"failedInstructions"` and `"cancelled"` raise, any
other status sleeps `poll_interval` and repeats; leaving the loop raises the
timeout error. Returns (result, end time, polls issued, sleeps performed). -/
def pollLoop (start max_wait poll_interval : ℚ) :
    List PollStep → ℚ → PollResult × ℚ × ℕ × ℕ
  | sched, now =>
      if now - start < max_wait then
        match sched with
        | [] => (.outOfSchedule, now, 0, 0)
        | step :: rest =>
            let now1 := now + step.rtt
            if step.status = some "success" then (.success step, now1, 1, 0)
            else if step.status = some "failedInstructions" then
              (.execError step.reportUrl, now1, 1, 0)
            else if step.status = some "cancelled" then (.cancelledError, now1, 1, 0)
            else
              let r := pollLoop start max_wait poll_interval rest (now1 + poll_interval)
              (r.1, r.2.1, r.2.2.1 + 1, r.2.2.2 + 1)
      else (.timeout, now, 0, 0)

/-- `poll_workitem` entered at `start_time = now` (line 171). -/
def poll_workitem (max_wait poll_interval : ℚ) (sched : List PollStep) (start : ℚ) :
    PollResult × ℚ × ℕ × ℕ :=
  pollLoop start max_wait poll_interval sched start

/-! ## Output fetching (`create_workitem_and_wait`, lines 263-297) -/

/-- A value of the final status's `arguments` mapping: a JSON object that
may or may not contain a `"url"` key, or a non-object value (the code guards
with `isinstance(output_info, dict)`). -/
inductive ArgValue where
  | dict (url : Option String)
  | nondict
  deriving Repr, DecidableEq

/-- Whether the download branch of `create_workitem_and_wait` (line 291)
accepts this value: `isinstance(output_info, dict) and "url" in output_info`. -/
def ArgValue.hasUrl : ArgValue → Bool
  | .dict (some _) => true
  | _ => false

/-- The download loop of `create_workitem_and_wait` (lines 289-295):
iterate the final status's `arguments` items, download those carrying a
`"url"`, skip the rest. `download` maps a url to the fetched bytes. -/
def fetch_outputs (download : String → List ℕ) :
    List (String × ArgValue) → List (String × List ℕ)
  | [] => []
  | (name, v) :: rest =>
      match v with
      | .dict (some u) => (name, download u) :: fetch_outputs download rest
      | _ => fetch_outputs download rest

/-- The error the spec ascribes to the output-fetching step. The code raises
no such error; the type only lets the fetch step's (non-)failure be stated. -/
inductive FetchError where
  | incompleteArtifacts
  deriving Repr, DecidableEq

/-- The output-fetching step of `create_workitem_and_wait` as an operation
that could fail: the code (lines 289-297) ignores the declared output names
and unconditionally returns the downloads it collected. -/
def fetchAll (download : String → List ℕ) (_declaredOutputs : List String)
    (finalArgs : List (String × ArgValue)) :
    Except FetchError (List (String × List ℕ)) :=
  .ok (fetch_outputs download finalArgs)

/-! ## Module-level singleton (`get_aps_client`, lines 300-309) -/

/-- The fields of `APSClient.__init__` (lines 37-43) relevant to the
singleton accessor. -/
structure APSClientRec where
  client_id : String
  client_secret : String
  region : String
  deriving Repr, DecidableEq

/-- `get_aps_client` (lines 304-309): the module global `_aps_client` is the
explicit state; a fresh client is constructed iff the global is `None` or
its `client_id` differs from the requested one. Returns (client, new global). -/
def get_aps_client (g : Option APSClientRec) (client_id client_secret region : String) :
    APSClientRec × Option APSClientRec :=
  match g with
  | none =>
      let c : APSClientRec := ⟨client_id, client_secret, region⟩
      (c, some c)
  | some c =>
      if c.client_id ≠ client_id then
        let c' : APSClientRec := ⟨client_id, client_secret, region⟩
        (c', some c')
      else (c, some c)

/-! ## Concurrent token refresh -/

/-- The phases of one caller running `authenticate` concurrently: `start`
(about to execute the cache check of lines 52-53), `exchanging` (suspended
in the awaited POST of line 65), `done`. -/
inductive CallerPhase where
  | start
  | exchanging
  | done
  deriving Repr, DecidableEq

/-- Shared state of two concurrent `authenticate` callers on one `APSClient`:
the `_token` field and the number of network exchanges performed so far. -/
structure ConcState where
  phaseA : CallerPhase
  phaseB : CallerPhase
  cache : Option APSToken
  exchanges : ℕ
  deriving Repr, DecidableEq

/-- One scheduler step of a single caller at time `now`, where a completed
exchange produces the token `fresh` and assigns it to `self._token` (lines
70-74). From `start`, a valid cached token finishes the call with no
exchange (lines 52-53); otherwise the caller initiates the POST and
suspends. From `exchanging`, the response arrives, the exchange counts, and
the cache is overwritten. -/
def stepCaller (now : ℚ) (fresh : APSToken) (phase : CallerPhase)
    (cache : Option APSToken) (exchanges : ℕ) :
    CallerPhase × Option APSToken × ℕ :=
  match phase with
  | .start =>
      match cache with
      | some t =>
          if t.is_expired now = false then (.done, cache, exchanges)
          else (.exchanging, cache, exchanges)
      | none => (.exchanging, cache, exchanges)
  | .exchanging => (.done, some fresh, exchanges + 1)
  | .done => (.done, cache, exchanges)

/-- Run a schedule of interleaved steps (`false` steps caller A, `true`
steps caller B) from a shared state. -/
def runSched (now : ℚ) (fresh : APSToken) : List Bool → ConcState → ConcState
  | [], s => s
  | b :: rest, s =>
      if b then
        let r := stepCaller now fresh s.phaseB s.cache s.exchanges
        runSched now fresh rest ⟨s.phaseA, r.1, r.2.1, r.2.2⟩
      else
        let r := stepCaller now fresh s.phaseA s.cache s.exchanges
        runSched now fresh rest ⟨r.1, s.phaseB, r.2.1, r.2.2⟩

/-! ## Theorems -/

/-- C2: a successful exchange at time `t` with `expires_in = E` caches a
token with `expires_at = t + E`; every `authenticate` call issued at a time
`now < t + E - 300` returns that cached token with zero network exchanges,
and the token counts as expired exactly when `t + E - 300 ≤ now` (the fixed
5-minute margin of `APSToken.is_expired`). -/
theorem C2_token_cached_until_margin (t E now : ℚ) (a : String) (tt : Option String)
    (code : ℕ) (resps : List HttpResp) (tok : APSToken)
    (h2xx : 200 ≤ code ∧ code < 300)
    (htok : exchangeOnce t (.resp code ⟨some a, some E, tt⟩) = .ok tok)
    (hnow : now < t + E - 300) :
    authenticate now (some tok) resps = some (.ok tok, some tok, 0)
    ∧ ∀ n : ℚ, tok.is_expired n = true ↔ t + E - 300 ≤ n := by
  have hcode : ¬(code < 200 ∨ 300 ≤ code) := by omega
  rw [exchangeOnce, if_neg hcode] at htok
  simp only [parseTokenBody, Option.getD_some, Except.ok.injEq] at htok
  subst htok
  constructor
  · have hexp : APSToken.is_expired ⟨a, t + E, tt.getD "Bearer"⟩ now = false := by
      simp only [APSToken.is_expired, decide_eq_false_iff_not, not_le]
      linarith
    simp [authenticate, hexp]
  · intro n
    simp [APSToken.is_expired]

/-- Witness for C2 at `t = 0`, `E = 3600`, `now = 0`. -/
theorem C2_token_cached_until_margin_witness :
    authenticate 0 (some ⟨"x", (0 : ℚ) + 3600, "Bearer"⟩) [] =
      some (.ok ⟨"x", (0 : ℚ) + 3600, "Bearer"⟩, some ⟨"x", (0 : ℚ) + 3600, "Bearer"⟩, 0)
    ∧ ∀ n : ℚ, (⟨"x", (0 : ℚ) + 3600, "Bearer"⟩ : APSToken).is_expired n = true ↔
        (0 : ℚ) + 3600 - 300 ≤ n :=
  C2_token_cached_until_margin 0 3600 0 "x" none 200 [] ⟨"x", (0 : ℚ) + 3600, "Bearer"⟩
    (by norm_num) (by rw [exchangeOnce, if_neg (by norm_num)]; rfl) (by norm_num)

/-- C10: on a 2xx exchange response, `authenticate` fails (with `KeyError`,
not retried) exactly when the body lacks `access_token`, leaving the cache
unreplaced; when `access_token` is present, a missing `expires_in` defaults
to 3600 seconds, a missing `token_type` defaults to `"Bearer"`, and the
resulting token is cached. -/
theorem C10_defaults_accepted (now : ℚ) (code : ℕ) (body : TokenResponse)
    (rest : List HttpResp) (h2xx : 200 ≤ code ∧ code < 300) :
    (body.access_token = none →
      authenticate now none (.resp code body :: rest) =
        some (.error (.keyError "access_token"), none, 1))
    ∧ (∀ a, body.access_token = some a →
        authenticate now none (.resp code body :: rest) =
          some (.ok ⟨a, now + body.expires_in.getD 3600, body.token_type.getD "Bearer"⟩,
                some ⟨a, now + body.expires_in.getD 3600, body.token_type.getD "Bearer"⟩, 1)) := by
  have hcode : ¬(code < 200 ∨ 300 ≤ code) := by omega
  constructor
  · intro h
    simp [authenticate, authLoop, exchangeOnce, if_neg hcode, parseTokenBody, h, authRetryable]
  · intro a h
    simp [authenticate, authLoop, exchangeOnce, if_neg hcode, parseTokenBody, h]

/-- Witness for C10 at a 200 response whose body carries only
`access_token`: both defaults apply and the token is cached. -/
theorem C10_defaults_accepted_witness :
    authenticate 0 none [.resp 200 ⟨some "a", none, none⟩] =
      some (.ok ⟨"a", (0 : ℚ) + (Option.getD none 3600),
                 Option.getD none "Bearer"⟩,
            some ⟨"a", (0 : ℚ) + (Option.getD none 3600),
                  Option.getD none "Bearer"⟩, 1) :=
  (C10_defaults_accepted 0 200 ⟨some "a", none, none⟩ [] (by norm_num)).2 "a" rfl

/-- C9: `get_aps_client` with the same `client_id` returns the instance
created by the first call, retaining the original secret and region even
when different ones are passed; a fresh instance is created only when no
instance exists or the requested `client_id` differs from the cached one. -/
theorem C9_singleton_retains_first_config (id s1 r1 s2 r2 : String) :
    get_aps_client (get_aps_client none id s1 r1).2 id s2 r2 =
      (⟨id, s1, r1⟩, some ⟨id, s1, r1⟩)
    ∧ (∀ c : APSClientRec, c.client_id = id →
        get_aps_client (some c) id s2 r2 = (c, some c))
    ∧ (∀ c : APSClientRec, c.client_id ≠ id →
        get_aps_client (some c) id s2 r2 = (⟨id, s2, r2⟩, some ⟨id, s2, r2⟩))
    ∧ get_aps_client none id s2 r2 = (⟨id, s2, r2⟩, some ⟨id, s2, r2⟩) := by
  refine ⟨?_, ?_, ?_, rfl⟩
  · simp [get_aps_client]
  · intro c hc
    simp [get_aps_client, hc]
  · intro c hc
    simp [get_aps_client, hc]

/-- Witness for C9: two calls with the same id but different secret and
region; the second call returns the first call's instance. -/
theorem C9_singleton_retains_first_config_witness :
    get_aps_client (get_aps_client none "id" "s1" "r1").2 "id" "s2" "r2" =
      (⟨"id", "s1", "r1"⟩, some ⟨"id", "s1", "r1"⟩)
    ∧ get_aps_client (some ⟨"id", "s1", "r1"⟩) "id" "s2" "r2" =
        (⟨"id", "s1", "r1"⟩, some ⟨"id", "s1", "r1"⟩) :=
  ⟨(C9_singleton_retains_first_config "id" "s1" "r1" "s2" "r2").1,
   (C9_singleton_retains_first_config "id" "s1" "r1" "s2" "r2").2.1 ⟨"id", "s1", "r1"⟩ rfl⟩

/-- A status the polling loop's three terminal comparisons do not match. -/
def nonTerminalStatus (s : Option String) : Prop :=
  s ≠ some "success" ∧ s ≠ some "failedInstructions" ∧ s ≠ some "cancelled"

/-- C4: on any iteration reached before the deadline whose poll reports
`"success"`, `poll_workitem`'s loop returns that status immediately — one
status query, zero sleeps, the clock advanced only by that query's
round-trip, and the result independent of any later scheduled polls. -/
theorem C4_success_returns_immediately (start max_wait poll_interval now : ℚ)
    (step : PollStep) (rest : List PollStep)
    (hdl : now - start < max_wait) (hs : step.status = some "success") :
    pollLoop start max_wait poll_interval (step :: rest) now =
      (.success step, now + step.rtt, 1, 0) := by
  rw [pollLoop, if_pos hdl]
  simp [hs]

/-- Witness for C4: a single scheduled poll reporting `"success"`. -/
theorem C4_success_returns_immediately_witness :
    pollLoop 0 10 5 [⟨some "success", none, 1⟩] 0 =
      (.success ⟨some "success", none, 1⟩, 0 + 1, 1, 0) :=
  C4_success_returns_immediately 0 10 5 0 ⟨some "success", none, 1⟩ []
    (by norm_num) rfl

/-- C5 counterexample: with the wire protocol's lowercase spelling
`"failedinstructions"`, the loop does NOT raise immediately on the first
such poll: it keeps polling (two queries, two sleeps here) and ends in the
timeout error, because the code compares against `"failedInstructions"`. -/
theorem C5_counterexample_lowercase_not_terminal :
    poll_workitem 10 5 [⟨some "failedinstructions", some "r", 1⟩,
                        ⟨some "failedinstructions", some "r", 1⟩] 0 =
      (.timeout, 12, 2, 2) := by
  norm_num [poll_workitem, pollLoop]
  simp

/-- C5 amended: the loop raises the execution error immediately — one
query, zero sleeps — the first time the status is spelled
`"failedInstructions"` (capital I, the code's spelling, line 186), while a
status spelled `"failedinstructions"` is treated as non-terminal: the loop
sleeps and continues with the remaining schedule. -/
theorem C5_failedInstructions_capitalI (start max_wait poll_interval now : ℚ)
    (step : PollStep) (rest : List PollStep)
    (hdl : now - start < max_wait) (hs : step.status = some "failedInstructions") :
    pollLoop start max_wait poll_interval (step :: rest) now =
      (.execError step.reportUrl, now + step.rtt, 1, 0)
    ∧ ∀ step' : PollStep, step'.status = some "failedinstructions" →
        pollLoop start max_wait poll_interval (step' :: rest) now =
          ((pollLoop start max_wait poll_interval rest (now + step'.rtt + poll_interval)).1,
           (pollLoop start max_wait poll_interval rest (now + step'.rtt + poll_interval)).2.1,
           (pollLoop start max_wait poll_interval rest (now + step'.rtt + poll_interval)).2.2.1 + 1,
           (pollLoop start max_wait poll_interval rest (now + step'.rtt + poll_interval)).2.2.2 + 1) := by
  constructor
  · rw [pollLoop, if_pos hdl]
    simp [hs]
  · intro step' hs'
    rw [pollLoop, if_pos hdl]
    simp [hs']

/-- Witness for the amended C5: a poll reporting `"failedInstructions"`
raises the execution error carrying the report location at once. -/
theorem C5_failedInstructions_capitalI_witness :
    pollLoop 0 10 5 [⟨some "failedInstructions", some "u", 1⟩] 0 =
      (.execError (some "u"), 0 + 1, 1, 0) :=
  (C5_failedInstructions_capitalI 0 10 5 0 ⟨some "failedInstructions", some "u", 1⟩ []
    (by norm_num) rfl).1

/-- Timeout behaviour of the polling loop from any reachable loop state:
if every scheduled status is non-terminal, round-trips lie in `[0, R]`, and
the schedule covers the deadline, the loop ends in the timeout error at a
moment between `start + max_wait` and `start + max_wait + R + poll_interval`. -/
theorem pollLoop_all_nonterminal_timeout (start max_wait poll_interval R : ℚ)
    (_hpi : 0 < poll_interval) :
    ∀ (sched : List PollStep) (now : ℚ),
      (∀ st ∈ sched, nonTerminalStatus st.status) →
      (∀ st ∈ sched, 0 ≤ st.rtt ∧ st.rtt ≤ R) →
      max_wait ≤ (now - start) + sched.length * poll_interval →
      now ≤ start + max_wait + R + poll_interval →
      (pollLoop start max_wait poll_interval sched now).1 = .timeout
      ∧ start + max_wait ≤ (pollLoop start max_wait poll_interval sched now).2.1
      ∧ (pollLoop start max_wait poll_interval sched now).2.1 ≤
          start + max_wait + R + poll_interval := by
  intro sched
  induction sched with
  | nil =>
      intro now _ _ hlen hub
      have h1 : ¬ (now - start < max_wait) := by
        simp only [List.length_nil, Nat.cast_zero, zero_mul, add_zero] at hlen
        linarith
      rw [pollLoop, if_neg h1]
      refine ⟨rfl, ?_, hub⟩
      have := not_lt.mp h1
      linarith
  | cons step rest ih =>
      intro now hnt hrtt hlen hub
      by_cases h1 : now - start < max_wait
      · obtain ⟨hs1, hs2, hs3⟩ := hnt step (List.mem_cons_self _ _)
        obtain ⟨hr0, hrR⟩ := hrtt step (List.mem_cons_self _ _)
        rw [pollLoop, if_pos h1]
        simp only [if_neg hs1, if_neg hs2, if_neg hs3]
        have hrec := ih (now + step.rtt + poll_interval)
          (fun st hst => hnt st (List.mem_cons_of_mem _ hst))
          (fun st hst => hrtt st (List.mem_cons_of_mem _ hst))
          (by
            simp only [List.length_cons, Nat.cast_add, Nat.cast_one] at hlen
            have : ((rest.length : ℚ) + 1) * poll_interval =
                (rest.length : ℚ) * poll_interval + poll_interval := by ring
            rw [this] at hlen
            linarith)
          (by linarith)
        exact hrec
      · rw [pollLoop, if_neg h1]
        refine ⟨rfl, ?_, hub⟩
        have := not_lt.mp h1
        linarith

/-- C6 counterexample to the stated bound: with every poll round-trip equal
to 1 second, `max_wait = 10` and `poll_interval = 5`, the call ends at
`t = 12 > 10 + 1 = max_wait + one poll round-trip`, because the inter-poll
sleep happens before the deadline is rechecked. -/
theorem C6_counterexample_exceeds_roundtrip_bound :
    poll_workitem 10 5 [⟨some "inprogress", none, 1⟩, ⟨some "inprogress", none, 1⟩] 0 =
      (.timeout, 12, 2, 2)
    ∧ ¬ ((12 : ℚ) ≤ 0 + 10 + 1) := by
  constructor
  · norm_num [poll_workitem, pollLoop]
    simp
  · norm_num

/-- C6 amended: if every poll reports a non-terminal status (such as
`"inprogress"`), `poll_workitem` raises the timeout error at the first
deadline check with elapsed time at least `max_wait`, and the call never
runs longer than `max_wait` plus one poll round-trip plus one poll
interval; the loop is wall-clock-deadline-based — the hypotheses bound
time, not an attempt count, and the schedule length is arbitrary. -/
theorem C6_timeout_at_deadline (max_wait poll_interval R start : ℚ)
    (sched : List PollStep)
    (hnt : ∀ st ∈ sched, nonTerminalStatus st.status)
    (hrtt : ∀ st ∈ sched, 0 ≤ st.rtt ∧ st.rtt ≤ R)
    (hpi : 0 < poll_interval) (hR : 0 ≤ R) (hmw : 0 < max_wait)
    (hlen : max_wait ≤ sched.length * poll_interval) :
    (poll_workitem max_wait poll_interval sched start).1 = .timeout
    ∧ start + max_wait ≤ (poll_workitem max_wait poll_interval sched start).2.1
    ∧ (poll_workitem max_wait poll_interval sched start).2.1 ≤
        start + max_wait + R + poll_interval := by
  have h := pollLoop_all_nonterminal_timeout start max_wait poll_interval R hpi
    sched start hnt hrtt (by simpa using hlen) (by linarith)
  simpa [poll_workitem] using h

/-- Witness for the amended C6: two `"inprogress"` polls with 1-second
round-trips against a 10-second deadline and 5-second interval. -/
theorem C6_timeout_at_deadline_witness :
    (poll_workitem 10 5 [⟨some "inprogress", none, 1⟩, ⟨some "inprogress", none, 1⟩] 0).1 =
      .timeout
    ∧ (0 : ℚ) + 10 ≤
        (poll_workitem 10 5 [⟨some "inprogress", none, 1⟩, ⟨some "inprogress", none, 1⟩] 0).2.1
    ∧ (poll_workitem 10 5 [⟨some "inprogress", none, 1⟩, ⟨some "inprogress", none, 1⟩] 0).2.1 ≤
        (0 : ℚ) + 10 + 1 + 5 :=
  C6_timeout_at_deadline 10 5 1 0
    [⟨some "inprogress", none, 1⟩, ⟨some "inprogress", none, 1⟩]
    (by intro st hst
        simp only [List.mem_cons, List.not_mem_nil, or_false] at hst
        rcases hst with rfl | rfl <;> exact ⟨by simp, by simp, by simp⟩)
    (by intro st hst
        simp only [List.mem_cons, List.not_mem_nil, or_false] at hst
        rcases hst with rfl | rfl <;> norm_num)
    (by norm_num) (by norm_num) (by norm_num) (by norm_num)

/-- C1 counterexample: the final status resolves no download location for
the declared output `"outB"`, yet the fetch step succeeds and returns the
partial artifact set containing only `"outA"` — and bytes were downloaded
for the run, not zero. No `IncompleteArtifactsError` is raised. -/
theorem C1_counterexample_partial_artifacts_returned :
    fetchAll (fun _ => [1, 2]) ["outA", "outB"]
      [("outA", .dict (some "u")), ("outB", .dict none)] =
      .ok [("outA", [1, 2])] := rfl

/-- C1 amended: the output-fetching step of `create_workitem_and_wait`
never fails: it downloads exactly the arguments of the final status whose
value is a JSON object carrying a `"url"` key and silently skips every
other argument, so a partial artifact set can be returned without error. -/
theorem C1_missing_url_silently_skipped (download : String → List ℕ)
    (decl : List String) (args : List (String × ArgValue)) :
    fetchAll download decl args = .ok (fetch_outputs download args)
    ∧ (fetch_outputs download args).map Prod.fst =
        (args.filter (fun p => p.2.hasUrl)).map Prod.fst := by
  refine ⟨rfl, ?_⟩
  induction args with
  | nil => rfl
  | cons p rest ih =>
      obtain ⟨name, v⟩ := p
      cases v with
      | dict u =>
          cases u with
          | none => simpa [fetch_outputs, ArgValue.hasUrl] using ih
          | some s => simpa [fetch_outputs, ArgValue.hasUrl] using ih
      | nondict => simpa [fetch_outputs, ArgValue.hasUrl] using ih

/-- C3 counterexample: the exchange's first response is a 401 (non-2xx),
yet the retry decorator on `authenticate` silently retries it; the second
attempt succeeds and the caller receives a token — the error was not
propagated, and two network exchanges were performed. -/
theorem C3_counterexample_non2xx_silently_retried :
    authenticate 0 none
      [.resp 401 ⟨none, none, none⟩,
       .resp 200 ⟨some "tok", some 3600, some "Bearer"⟩] =
      some (.ok ⟨"tok", (0 : ℚ) + 3600, "Bearer"⟩,
            some ⟨"tok", (0 : ℚ) + 3600, "Bearer"⟩, 2) := by
  norm_num [authenticate, authLoop, exchangeOnce, parseTokenBody,
    authRetryable, authMaxAttempts]

/-- C3 amended: a non-2xx exchange response is silently retried up to the
3-attempt cap, and only after three non-2xx responses does the HTTP status
error propagate; a 2xx response whose body lacks `access_token` propagates
`KeyError` immediately without retry. In both failure modes no cache
replacement occurs: the cache keeps its prior (absent or expired) value. -/
theorem C3_failure_retries_then_propagates (now : ℚ) (c1 c2 c3 : ℕ)
    (b1 b2 b3 : TokenResponse) (rest : List HttpResp)
    (h1 : c1 < 200 ∨ 300 ≤ c1) (h2 : c2 < 200 ∨ 300 ≤ c2)
    (h3 : c3 < 200 ∨ 300 ≤ c3) :
    authenticate now none (.resp c1 b1 :: .resp c2 b2 :: .resp c3 b3 :: rest) =
      some (.error (.httpStatus c3), none, 3)
    ∧ (∀ (code : ℕ) (body : TokenResponse) (rest' : List HttpResp),
        200 ≤ code → code < 300 → body.access_token = none →
        authenticate now none (.resp code body :: rest') =
          some (.error (.keyError "access_token"), none, 1)) := by
  constructor
  · simp [authenticate, authLoop, exchangeOnce, authRetryable, authMaxAttempts,
      h1, h2, h3]
  · intro code body rest' hlo hhi hb
    have hcode : ¬(code < 200 ∨ 300 ≤ code) := by omega
    simp [authenticate, authLoop, exchangeOnce, if_neg hcode, parseTokenBody,
      hb, authRetryable, authMaxAttempts]

/-- Witness for the amended C3: three 500 responses exhaust the attempts
and the status error propagates with the cache still empty. -/
theorem C3_failure_retries_then_propagates_witness :
    authenticate 0 none
      [.resp 500 ⟨none, none, none⟩, .resp 500 ⟨none, none, none⟩,
       .resp 500 ⟨none, none, none⟩] =
      some (.error (.httpStatus 500), none, 3) :=
  (C3_failure_retries_then_propagates 0 500 500 500
    ⟨none, none, none⟩ ⟨none, none, none⟩ ⟨none, none, none⟩ []
    (by norm_num) (by norm_num) (by norm_num)).1

/-- C7 counterexample: at the submission call site a transient network
failure is surfaced immediately without any local retry — the very next
scheduled response would have succeeded, but `create_workitem` (which has
no retry decorator) never issues it. -/
theorem C7_counterexample_submission_not_retried :
    create_workitem (A := String) [.error .request, .ok "job-1"] =
      some (.error .request, 1) := rfl

/-- C7 amended: the three call sites have three different retry policies.
Authentication retries transient network failures AND non-2xx HTTP status
errors (3 attempts); submission performs no local retry at all — the first
outcome, transient or not, is final; each status poll retries only
transient network failures (3 attempts) and surfaces a non-2xx response
immediately. -/
theorem C7_per_site_retry_policies :
    (∀ code : ℕ, authRetryable (.httpStatus code) = true)
    ∧ authRetryable .request = true
    ∧ (∀ code : ℕ, statusRetryable (.httpStatus code) = false)
    ∧ statusRetryable .request = true
    ∧ (∀ (r : Except DAError ℕ) (rest : List (Except DAError ℕ)),
        create_workitem (r :: rest) = some (r, 1))
    ∧ (∀ (a : ℕ) (rest : List (Except DAError ℕ)),
        get_workitem_status (.error .request :: .ok a :: rest) = some (.ok a, 2))
    ∧ (∀ rest : List (Except DAError ℕ),
        get_workitem_status
          ((.error .request : Except DAError ℕ) :: .error .request ::
            .error .request :: rest) =
          some (.error .request, 3))
    ∧ (∀ (code : ℕ) (rest : List (Except DAError ℕ)),
        get_workitem_status (.error (.httpStatus code) :: rest) =
          some (.error (.httpStatus code), 1)) := by
  refine ⟨fun _ => rfl, rfl, fun _ => rfl, rfl, fun _ _ => rfl, ?_, ?_, ?_⟩
  · intro a rest
    simp [get_workitem_status, retryCall, statusRetryable, statusMaxAttempts]
  · intro rest
    simp [get_workitem_status, retryCall, statusRetryable, statusMaxAttempts]
  · intro code rest
    simp [get_workitem_status, retryCall, statusRetryable, statusMaxAttempts]

/-- C8 counterexample: two concurrent callers, no cached token. Under the
interleaving where both execute the cache check of `authenticate` before
either completes its exchange, two network exchanges are performed, not
one — `_token` is a bare shared variable with no single-flight guard. -/
theorem C8_counterexample_duplicate_exchange :
    (runSched 0 ⟨"t", 3600, "Bearer"⟩ [false, true, false, true]
      ⟨.start, .start, none, 0⟩).exchanges = 2 := rfl

/-- C8 amended: the token cache provides no single-flight guarantee. With
two concurrent callers and an empty cache, the interleaving in which both
pass the cache check performs two exchanges; a single exchange occurs only
when one caller's refresh completes (writing the cache) before the other
caller runs its cache check. -/
theorem C8_no_single_flight :
    (runSched 0 ⟨"t", 3600, "Bearer"⟩ [false, true, false, true]
      ⟨.start, .start, none, 0⟩).exchanges = 2
    ∧ (runSched 0 ⟨"t", 3600, "Bearer"⟩ [false, false, true]
      ⟨.start, .start, none, 0⟩).exchanges = 1 := by
  constructor
  · rfl
  · norm_num [runSched, stepCaller, APSToken.is_expired]

end APS
